import Mathlib

/-!
Shallow embedding of the MedGuide guideline-assistant pipeline
(`streamlit-guidelines-app.py`): patient context model, the mock
guideline/note backends of `ClaudeAPI`, the conversation handler
`handle_user_input`, and the PDF utilities.  Python strings become Lean
`String`s, Python dicts with a fixed shape become structures, dicts used
as maps become association lists, JSON `null` becomes `none`, and the
network / JSON-parsing effects of the non-demo code paths are passed in
explicitly (an `ApiOutcome` for `requests.post` and a parse oracle for
`json.loads`).
-/

/-- Python's `s.lower()` restricted to the characters the program uses. -/
def lowerStr (s : String) : String :=
  String.mk (s.toList.map Char.toLower)

/-- Python's `s.upper()`. -/
def upperStr (s : String) : String :=
  String.mk (s.toList.map Char.toUpper)

/-- Is `needle` a contiguous sublist of `hay`? -/
def listInfix : (needle hay : List Char) → Bool
  | needle, [] => needle.isEmpty
  | needle, c :: t => List.isPrefixOf needle (c :: t) || listInfix needle t

/-- Python's substring test `needle in hay`. -/
def strContains (hay needle : String) : Bool :=
  listInfix needle.toList hay.toList

/-- Python's `d.get(key, default)` on a string-valued dict, modelled as an
    association list. -/
def labGet (labs : List (String × String)) (key dflt : String) : String :=
  match labs.lookup key with
  | some v => v
  | none => dflt

/-- A patient record as built by `data/sample_data.py::get_sample_patient` and
    consumed by `ClaudeAPI`.  Optional fields model dict keys that may be
    absent (the code reads them with `.get(key, default)`); the two nested
    dicts `receptorStatus` and `recentLabs` are association lists. -/
structure PatientContext where
  id : String := ""
  name : String := ""
  age : Option Nat := none
  gender : Option String := none
  diagnosis : String := ""
  stage : Option String := none
  receptorStatus : List (String × String) := []
  recentLabs : List (String × String) := []
  deriving Repr, DecidableEq

/-- One entry of the `recommendations` array produced by
    `ClaudeAPI.query_guidelines`.  `page` and `source` are `none` where the
    code stores Python `None`/JSON `null`; `explanation` is `none` where the
    code builds a dict without that key (the fallback recommendations). -/
structure Recommendation where
  text : String
  explanation : Option String
  page : Option Int
  source : Option String
  confidence : ℚ
  deriving Repr, DecidableEq

/-- The `{"recommendations": [...]}` dict returned by
    `ClaudeAPI.query_guidelines`. -/
structure GuidelineResponse where
  recommendations : List Recommendation
  deriving Repr, DecidableEq

/-- The `{"title": ..., "content": ...}` dict returned by
    `ClaudeAPI.generate_clinical_note`. -/
structure ClinicalNote where
  title : String
  content : String
  deriving Repr, DecidableEq

/-- Outcome of the `requests.post` call on the non-demo code paths:
    `requestError` models a raised `requests.RequestException`, and
    `success content` models a 2xx reply whose `result["content"][0]["text"]`
    is `content`. -/
inductive ApiOutcome where
  | requestError
  | success (content : String)
  deriving Repr, DecidableEq

/-- Python `f"{x}"` applied to a value that is either a string or `None`
    (the `source` field of a recommendation). -/
def fmtOptStr (o : Option String) : String :=
  match o with
  | some s => s
  | none => "None"

/-- Python `f"{x}"` applied to a value that is either an int or `None`
    (the `page` field of a recommendation). -/
def fmtOptInt (o : Option Int) : String :=
  match o with
  | some n => toString n
  | none => "None"

/-- `ClaudeAPI._get_mock_guideline_response(query, patient_context)`:
    the demo-key retrieval backend.  `time.sleep` has no observable effect
    and is dropped. -/
def get_mock_guideline_response (query : String) (patient_context : PatientContext) :
    GuidelineResponse :=
  if strContains (lowerStr patient_context.diagnosis) "diabetes" then
    { recommendations :=
        [ { text := "For patients with Type 2 diabetes with HbA1c levels > 8.0%, clinicians should consider intensifying pharmacologic therapy, adding additional agents, or referral to a specialist."
          , explanation := some ("The patient\x27s HbA1c is " ++
              labGet patient_context.recentLabs "HbA1c" "8.2%" ++
              ", which is above the threshold where guidelines recommend treatment intensification.")
          , page := some 42
          , source := some "ADA Standards of Medical Care in Diabetes‚Äî2024"
          , confidence := mkRat 95 100 }
        , { text := "Target BP should be <140/90 mmHg for most patients with diabetes and hypertension."
          , explanation := some ("The patient\x27s current BP is " ++
              labGet patient_context.recentLabs "BP" "142/88" ++
              ", which is above the recommended target for patients with diabetes.")
          , page := some 18
          , source := some "JNC 8 Guidelines"
          , confidence := mkRat 90 100 } ] }
  else if strContains (lowerStr query) "her2" || strContains (lowerStr query) "breast cancer" then
    { recommendations :=
        [ { text := "Preferred neoadjuvant regimens for HER2-positive disease include: Doxorubicin/cyclophosphamide (AC) followed by paclitaxel + trastuzumab ¬± pertuzumab."
          , explanation := some "The patient has HER2-positive breast cancer that would benefit from neoadjuvant therapy with dual HER2 blockade."
          , page := some 24
          , source := some "NCCN Guidelines Version 1.2024, Breast Cancer (BINV-L)"
          , confidence := mkRat 95 100 } ] }
  else
    { recommendations :=
        [ { text := "Recommendation based on your search would appear here."
          , explanation := some "This is a placeholder explanation for demo purposes."
          , page := some 1
          , source := some "Medical Guidelines"
          , confidence := mkRat 7 10 } ] }

/-- The opening-brace character (code point 123). -/
def lbrace : Char := Char.ofNat 123

/-- The closing-brace character (code point 125). -/
def rbrace : Char := Char.ofNat 125

/-- `ClaudeAPI.query_guidelines(query, patient_context)`.  The demo-key
    branch returns the mock response.  Otherwise `outcome` is what
    `requests.post` produced, and `parse` is the `json.loads` oracle applied
    to the substring between the first opening brace (Python
    `content.find`) and the last closing brace (`content.rfind`), inclusive;
    `parse _ = none` models a `JSONDecodeError`. -/
def query_guidelines (api_key : String) (parse : String → Option GuidelineResponse)
    (outcome : ApiOutcome) (query : String) (patient_context : PatientContext) :
    GuidelineResponse :=
  if api_key = "demo_key" then get_mock_guideline_response query patient_context
  else
    match outcome with
    | ApiOutcome.requestError => { recommendations := [] }
    | ApiOutcome.success content =>
        let cs := content.toList
        match cs.indexOf? lbrace, cs.reverse.indexOf? rbrace with
        | some json_start, some jr =>
            -- Python json_end = content.rfind(rbrace) + 1 = cs.length - jr
            if json_start < cs.length - jr then
              let json_str := String.mk ((cs.drop json_start).take (cs.length - jr - json_start))
              match parse json_str with
              | some r => r
              | none =>
                  { recommendations :=
                      [ { text := "Unable to parse response", explanation := none
                        , page := none, source := none, confidence := 0 } ] }
            else
              { recommendations :=
                  [ { text := content, explanation := none
                    , page := none, source := none, confidence := mkRat 7 10 } ] }
        | _, _ =>
            { recommendations :=
                [ { text := content, explanation := none
                  , page := none, source := none, confidence := mkRat 7 10 } ] }

/-- The diabetes f-string of `ClaudeAPI._get_mock_note_response`, with the
    same `.get` defaults as the source. -/
def diabetes_note_content (patient_data : PatientContext) : String :=
  "ASSESSMENT:\n" ++
  toString (patient_data.age.getD 54) ++ "yo " ++ patient_data.gender.getD "male" ++
  " with poorly-controlled Type 2 Diabetes (A1c " ++
  labGet patient_data.recentLabs "HbA1c" "8.2%" ++ ") and Hypertension (BP " ++
  labGet patient_data.recentLabs "BP" "142/88" ++ "), with elevated LDL (" ++
  labGet patient_data.recentLabs "LDL" "138mg/dL" ++ ").\n" ++
  "\n" ++
  "PLAN:\n" ++
  "1. Diabetes Management:\n" ++
  "   - Intensify glycemic control (HbA1c > 8.0% requires therapy adjustment per ADA 2024 Guidelines, p.42)\n" ++
  "   - Consider adding second-line agent or adjusting current medication dose\n" ++
  "   - Reinforce dietary modifications and physical activity\n" ++
  "   - Schedule follow-up A1c check in 3 months\n" ++
  "\n" ++
  "2. Hypertension Management:\n" ++
  "   - Target BP < 140/90 mmHg per JNC 8 Guidelines for diabetic patients\n" ++
  "   - Continue current antihypertensive; reassess in 4 weeks\n" ++
  "   - Encourage sodium restriction and DASH diet\n" ++
  "\n" ++
  "3. Lipid Management:\n" ++
  "   - Initiate moderate-intensity statin therapy (LDL > 130mg/dL with diabetes indicates statin benefit per AHA/ACC Guidelines)\n" ++
  "   - Baseline liver function tests prior to starting\n" ++
  "\n" ++
  "4. Monitoring:\n" ++
  "   - Renal function panel and urine microalbumin\n" ++
  "   - Comprehensive foot exam\n" ++
  "   - Schedule eye examination if not done within past year"

/-- The HER2 f-string of `ClaudeAPI._get_mock_note_response`; the source
    file stores mis-encoded characters for the superscript-two and
    multiplication signs, reproduced here character-for-character. -/
def her2_note_content (patient_data : PatientContext) : String :=
  "ASSESSMENT:\n" ++
  toString (patient_data.age.getD 47) ++ "yo " ++ patient_data.gender.getD "female" ++
  " with newly diagnosed left breast invasive ductal carcinoma, " ++
  patient_data.stage.getD "cT2N1M0 stage IIB" ++ ", ER " ++
  labGet patient_data.receptorStatus "ER" "15%" ++ ", PR " ++
  labGet patient_data.receptorStatus "PR" "5%" ++ ", HER2 " ++
  labGet patient_data.receptorStatus "HER2" "3+ by IHC (confirmed by FISH with HER2/CEP17 ratio 5.2)" ++
  ".\n" ++
  "\n" ++
  "PLAN:\n" ++
  "1. Neoadjuvant Systemic Therapy:\n" ++
  "   - Dose-dense AC-T regimen with dual HER2-targeted therapy per NCCN Guidelines v.1.2024 (BINV-L)\n" ++
  "   - Regimen details:\n" ++
  "     * Dose-dense AC: Doxorubicin 60 mg/m¬≤ IV + Cyclophosphamide 600 mg/m¬≤ IV q2wks √ó 4 cycles\n" ++
  "     * Followed by: Paclitaxel 80 mg/m¬≤ IV weekly √ó 12 weeks\n" ++
  "     * With: Trastuzumab 4 mg/kg IV loading dose, then 2 mg/kg IV weekly\n" ++
  "     * And: Pertuzumab 840 mg IV loading dose, then 420 mg IV q3wks\n" ++
  "\n" ++
  "2. Supportive Care:\n" ++
  "   - Pegfilgrastim 6 mg SC on day 2 of each AC cycle\n" ++
  "   - Antiemetic protocol with AC: Olanzapine 10 mg PO day 1-3, Aprepitant 125 mg PO day 1 then 80 mg days 2-3, Dexamethasone 12 mg IV day 1, Ondansetron 16 mg PO day 1\n" ++
  "   - Cardiac monitoring: LVEF assessment at baseline, after AC completion, and q3mo during HER2-targeted therapy (baseline LVEF 62%)\n" ++
  "   - Infusion reaction prophylaxis per institutional protocol\n" ++
  "\n" ++
  "3. Monitoring:\n" ++
  "   - CBC with diff, CMP prior to each AC cycle and weekly during paclitaxel\n" ++
  "   - Clinical tumor assessment prior to each cycle\n" ++
  "   - Cardiac monitoring with MUGA scan or echocardiogram at baseline and q3mo\n" ++
  "   - Post-treatment imaging with MRI breast to assess response prior to surgery\n" ++
  "\n" ++
  "4. Follow-up:\n" ++
  "   - Weekly visits during AC with medical oncology\n" ++
  "   - Surgical consultation after cycle 2 of AC to plan for post-neoadjuvant surgery\n" ++
  "   - Genetic counseling referral (appointment pending)\n" ++
  "   - Consider enrollment in clinical trial NSABP B-60 (pending eligibility screening)"

/-- `ClaudeAPI._get_mock_note_response(condition, patient_data)`:
    the demo-key note backend. -/
def get_mock_note_response (condition : String) (patient_data : PatientContext) :
    ClinicalNote :=
  if strContains (lowerStr condition) "diabetes" then
    { title := "Assessment & Plan for Diabetes Management"
    , content := diabetes_note_content patient_data }
  else if strContains (lowerStr condition) "her2" || strContains (lowerStr condition) "breast" then
    { title := "Assessment & Plan for HER2+ Breast Cancer"
    , content := her2_note_content patient_data }
  else
    { title := "Assessment & Plan"
    , content := "No specific template available for this condition." }

/-- `ClaudeAPI.generate_clinical_note(patient_data, condition)`.  On the
    demo key it returns the mock note; otherwise a raised
    `requests.RequestException` yields the fixed error note and a successful
    reply is wrapped with the upper-cased condition in the title. -/
def generate_clinical_note (api_key : String) (outcome : ApiOutcome)
    (patient_data : PatientContext) (condition : String) : ClinicalNote :=
  if api_key = "demo_key" then get_mock_note_response condition patient_data
  else
    match outcome with
    | ApiOutcome.requestError =>
        { title := "Error Generating Note"
        , content := "Unable to generate a clinical note at this time." }
    | ApiOutcome.success content =>
        { title := "Assessment & Plan for " ++ upperStr condition
        , content := content.trim }

/-- The two `ClaudeAPI` methods the conversation handler calls, as an
    abstract interface so the handler theorems hold for every backend
    (demo or real). -/
structure ClaudeAPIModel where
  query_guidelines : String → PatientContext → GuidelineResponse
  generate_clinical_note : PatientContext → String → ClinicalNote

/-- The `ClaudeAPI('demo_key')` instance the app constructs by default;
    on the demo key neither the request outcome nor the JSON parse is ever
    consulted. -/
def demo_api : ClaudeAPIModel where
  query_guidelines q p := query_guidelines "demo_key" (fun _ => none) ApiOutcome.requestError q p
  generate_clinical_note p c := generate_clinical_note "demo_key" ApiOutcome.requestError p c

/-- The chat-history `role` strings. -/
inductive Role where
  | user
  | assistant
  | system
  deriving Repr, DecidableEq

/-- One entry of `st.session_state.chat_history`.  Fields the code only
    sets on some entries (`is_note`, `note`, `source`) default to the
    values `message.get(...)` would produce for an absent key. -/
structure ChatMessage where
  role : Role
  content : String
  is_note : Bool := false
  note : Option ClinicalNote := none
  source : Option String := none
  deriving Repr, DecidableEq

/-- The note-request test on line 1079 of the source:
    `"assessment" in user_input.lower() and "plan" in user_input.lower()
    and "note" in user_input.lower()`. -/
def wants_note (user_input : String) : Bool :=
  strContains (lowerStr user_input) "assessment" &&
    strContains (lowerStr user_input) "plan" &&
    strContains (lowerStr user_input) "note"

/-- The condition category on line 1081 of the source:
    `"diabetes" if "diabetes" in patient["diagnosis"].lower() else
    "general"`. -/
def derive_condition (patient : PatientContext) : String :=
  if strContains (lowerStr patient.diagnosis) "diabetes" then "diabetes" else "general"

/-- `components/clinician_prompts.py::handle_user_input`, with the mutable
    `st.session_state.chat_history` made an explicit argument and result. -/
def handle_user_input (api : ClaudeAPIModel) (patient : PatientContext)
    (chat_history : List ChatMessage) (user_input : String) : List ChatMessage :=
  let hist := chat_history ++ [{ role := Role.user, content := user_input }]
  if wants_note user_input then
    let response := api.generate_clinical_note patient (derive_condition patient)
    hist ++ [{ role := Role.assistant
             , content := "I\x27ve prepared an assessment and plan based on this patient\x27s information and relevant guidelines:"
             , is_note := true
             , note := some { title := response.title, content := response.content } }]
  else
    let response := api.query_guidelines user_input patient
    match response.recommendations with
    | rec :: _ =>
        hist ++ [{ role := Role.assistant
                 , content := rec.explanation.getD "" ++ "\n\n\"" ++ rec.text ++ "\""
                 , source := some (fmtOptStr rec.source ++ ", page " ++ fmtOptInt rec.page) }]
    | [] =>
        hist ++ [{ role := Role.assistant
                 , content := "I couldn\x27t find specific guideline recommendations for your query. Please try asking a different question or provide more context." }]

/-- `data/sample_data.py::get_sample_patient(condition_type)`. -/
def get_sample_patient (condition_type : String) : PatientContext :=
  if condition_type = "her2" then
    { id := "p002"
    , name := "Sarah Johnson"
    , age := some 47
    , gender := some "female"
    , diagnosis := "Invasive Ductal Carcinoma, HER2+"
    , stage := some "cT2N1M0 stage IIB"
    , receptorStatus :=
        [ ("ER", "15%"), ("PR", "5%")
        , ("HER2", "3+ by IHC (confirmed by FISH with HER2/CEP17 ratio 5.2)") ]
    , recentLabs := [("CBC", "WNL"), ("CMP", "WNL"), ("LVEF", "62%")] }
  else
    { id := "p001"
    , name := "James Wilson"
    , age := some 54
    , gender := some "male"
    , diagnosis := "Type 2 Diabetes, Hypertension"
    , recentLabs := [("HbA1c", "8.2%"), ("BP", "142/88"), ("LDL", "138mg/dL")] }

/-- `utils/pdf_utils.py::extract_text_from_pdf`.  `pdf_parse` abstracts
    `PyPDF2.PdfReader`: it returns the list of per-page extracted texts, or
    `none` when the library raises (empty or corrupt input).  The result is
    the pair `(full_text, text_by_page)`; the page map is built from
    `enumerate` with keys `i + 1`. -/
def extract_text_from_pdf (pdf_parse : List Nat → Option (List String))
    (pdf_file : List Nat) : String × List (Nat × String) :=
  match pdf_parse pdf_file with
  | some pages =>
      (String.join (pages.map (fun page_text => page_text ++ "\n\n")),
       pages.enum.map (fun p => (p.1 + 1, p.2)))
  | none => ("", [])

/-- `utils/pdf_utils.py::get_pdf_page_count`: `len(pdf_reader.pages)`, or
    `0` when the library raises. -/
def get_pdf_page_count (pdf_parse : List Nat → Option (List String))
    (pdf_file : List Nat) : Nat :=
  match pdf_parse pdf_file with
  | some pages => pages.length
  | none => 0

/-- All confidences of a retrieval response lie in the unit interval. -/
def conf_in_unit (r : GuidelineResponse) : Bool :=
  r.recommendations.all (fun rec => decide (0 ≤ rec.confidence) && decide (rec.confidence ≤ 1))

/-- C1: for every patient whose diagnosis contains "diabetes"
    (case-insensitively), `query_guidelines` on the demo/mock path returns a
    non-empty recommendation list whose first recommendation cites a source
    containing "ADA" with page 42, and whose explanation interpolates the
    patient's actual `recentLabs` HbA1c value whenever that lab is
    present. -/
theorem c1_demo_diabetes_first_rec (parse : String → Option GuidelineResponse)
    (outcome : ApiOutcome) (query : String) (patient : PatientContext) (v : String)
    (hdiag : strContains (lowerStr patient.diagnosis) "diabetes" = true)
    (hlab : patient.recentLabs.lookup "HbA1c" = some v) :
    ∃ rec rest,
      (query_guidelines "demo_key" parse outcome query patient).recommendations = rec :: rest ∧
      (∃ src, rec.source = some src ∧ strContains src "ADA" = true) ∧
      rec.page = some 42 ∧
      rec.explanation = some ("The patient\x27s HbA1c is " ++ v ++
        ", which is above the threshold where guidelines recommend treatment intensification.") := by
  have h1 : query_guidelines "demo_key" parse outcome query patient =
      get_mock_guideline_response query patient := by
    simp [query_guidelines]
  rw [h1]
  unfold get_mock_guideline_response
  rw [if_pos hdiag]
  refine ⟨_, _, rfl, ⟨_, rfl, by decide⟩, rfl, ?_⟩
  simp [labGet, hlab]

/-- Witness for C1 at the sample diabetes patient and the query
    "medication adjustment". -/
theorem c1_demo_diabetes_first_rec_witness :
    strContains (lowerStr (get_sample_patient "diabetes").diagnosis) "diabetes" = true ∧
    (get_sample_patient "diabetes").recentLabs.lookup "HbA1c" = some "8.2%" ∧
    ∃ rec rest,
      (query_guidelines "demo_key" (fun _ => none) ApiOutcome.requestError
          "medication adjustment" (get_sample_patient "diabetes")).recommendations = rec :: rest ∧
      (∃ src, rec.source = some src ∧ strContains src "ADA" = true) ∧
      rec.page = some 42 ∧
      rec.explanation = some ("The patient\x27s HbA1c is " ++ "8.2%" ++
        ", which is above the threshold where guidelines recommend treatment intensification.") :=
  ⟨by decide, by decide,
    c1_demo_diabetes_first_rec (fun _ => none) ApiOutcome.requestError
      "medication adjustment" (get_sample_patient "diabetes") "8.2%" (by decide) (by decide)⟩

/-- C5: on the demo/mock path, a query and patient matching no known
    condition category (diagnosis without "diabetes", query without "her2"
    or "breast cancer") yield the single generic placeholder recommendation
    with confidence 0.7, not an empty list. -/
theorem c5_generic_fallback (parse : String → Option GuidelineResponse)
    (outcome : ApiOutcome) (query : String) (patient : PatientContext)
    (hd : strContains (lowerStr patient.diagnosis) "diabetes" = false)
    (h1 : strContains (lowerStr query) "her2" = false)
    (h2 : strContains (lowerStr query) "breast cancer" = false) :
    (query_guidelines "demo_key" parse outcome query patient).recommendations =
      [ { text := "Recommendation based on your search would appear here."
        , explanation := some "This is a placeholder explanation for demo purposes."
        , page := some 1
        , source := some "Medical Guidelines"
        , confidence := mkRat 7 10 } ] := by
  simp [query_guidelines, get_mock_guideline_response, hd, h1, h2]

/-- Witness for C5 at a migraine patient and the query "tension headache". -/
theorem c5_generic_fallback_witness :
    strContains (lowerStr ({ diagnosis := "Migraine" } : PatientContext).diagnosis)
        "diabetes" = false ∧
    strContains (lowerStr "tension headache") "her2" = false ∧
    strContains (lowerStr "tension headache") "breast cancer" = false ∧
    (query_guidelines "demo_key" (fun _ => none) ApiOutcome.requestError
        "tension headache" { diagnosis := "Migraine" }).recommendations =
      [ { text := "Recommendation based on your search would appear here."
        , explanation := some "This is a placeholder explanation for demo purposes."
        , page := some 1
        , source := some "Medical Guidelines"
        , confidence := mkRat 7 10 } ] :=
  ⟨by decide, by decide, by decide,
    c5_generic_fallback (fun _ => none) ApiOutcome.requestError "tension headache"
      { diagnosis := "Migraine" } (by decide) (by decide) (by decide)⟩

/-- C6: for every patient and every condition category containing neither
    "diabetes" nor "her2" nor "breast" (case-insensitively),
    `generate_clinical_note` on the demo path returns normally (it is a
    total function) with the fixed no-template content. -/
theorem c6_unknown_category_note (outcome : ApiOutcome) (patient : PatientContext)
    (condition : String)
    (h1 : strContains (lowerStr condition) "diabetes" = false)
    (h2 : strContains (lowerStr condition) "her2" = false)
    (h3 : strContains (lowerStr condition) "breast" = false) :
    generate_clinical_note "demo_key" outcome patient condition =
      { title := "Assessment & Plan"
      , content := "No specific template available for this condition." } := by
  simp [generate_clinical_note, get_mock_note_response, h1, h2, h3]

/-- Witness for C6 at the category "copd". -/
theorem c6_unknown_category_note_witness :
    strContains (lowerStr "copd") "diabetes" = false ∧
    strContains (lowerStr "copd") "her2" = false ∧
    strContains (lowerStr "copd") "breast" = false ∧
    generate_clinical_note "demo_key" ApiOutcome.requestError
        (get_sample_patient "her2") "copd" =
      { title := "Assessment & Plan"
      , content := "No specific template available for this condition." } :=
  ⟨by decide, by decide, by decide,
    c6_unknown_category_note ApiOutcome.requestError (get_sample_patient "her2") "copd"
      (by decide) (by decide) (by decide)⟩

/-- C7: with a non-demo key and an unreachable backend (request error),
    `generate_clinical_note patient "diabetes"` is deterministic: two calls
    yield equal notes, whose title is "Error Generating Note" and whose
    content is the fixed explanatory string. -/
theorem c7_error_note_idempotent (api_key : String) (patient : PatientContext)
    (h : api_key ≠ "demo_key") :
    generate_clinical_note api_key ApiOutcome.requestError patient "diabetes" =
      generate_clinical_note api_key ApiOutcome.requestError patient "diabetes" ∧
    (generate_clinical_note api_key ApiOutcome.requestError patient "diabetes").title =
      "Error Generating Note" ∧
    (generate_clinical_note api_key ApiOutcome.requestError patient "diabetes").content =
      "Unable to generate a clinical note at this time." := by
  refine ⟨rfl, ?_, ?_⟩ <;> simp [generate_clinical_note, h]

/-- Witness for C7 at a concrete non-demo key. -/
theorem c7_error_note_idempotent_witness :
    ("sk-live-key" : String) ≠ "demo_key" ∧
    (generate_clinical_note "sk-live-key" ApiOutcome.requestError
        (get_sample_patient "diabetes") "diabetes" =
      generate_clinical_note "sk-live-key" ApiOutcome.requestError
        (get_sample_patient "diabetes") "diabetes" ∧
    (generate_clinical_note "sk-live-key" ApiOutcome.requestError
        (get_sample_patient "diabetes") "diabetes").title = "Error Generating Note" ∧
    (generate_clinical_note "sk-live-key" ApiOutcome.requestError
        (get_sample_patient "diabetes") "diabetes").content =
      "Unable to generate a clinical note at this time.") :=
  ⟨by decide, c7_error_note_idempotent "sk-live-key" (get_sample_patient "diabetes") (by decide)⟩

/-- C10: on the demo/mock path, the retrieval result for a patient whose
    diagnosis contains "diabetes" is independent of the query text — the
    diabetes branch is selected before, and without consulting, the query. -/
theorem c10_demo_query_independent (parse : String → Option GuidelineResponse)
    (outcome : ApiOutcome) (q1 q2 : String) (patient : PatientContext)
    (h : strContains (lowerStr patient.diagnosis) "diabetes" = true) :
    query_guidelines "demo_key" parse outcome q1 patient =
      query_guidelines "demo_key" parse outcome q2 patient := by
  simp [query_guidelines, get_mock_guideline_response, h]

/-- Witness for C10: a her2-mentioning and a BP-mentioning query give the
    same demo result on the sample diabetes patient. -/
theorem c10_demo_query_independent_witness :
    strContains (lowerStr (get_sample_patient "diabetes").diagnosis) "diabetes" = true ∧
    query_guidelines "demo_key" (fun _ => none) ApiOutcome.requestError
        "her2 neoadjuvant breast cancer regimen" (get_sample_patient "diabetes") =
      query_guidelines "demo_key" (fun _ => none) ApiOutcome.requestError
        "What BP targets should I use?" (get_sample_patient "diabetes") :=
  ⟨by decide,
    c10_demo_query_independent (fun _ => none) ApiOutcome.requestError
      "her2 neoadjuvant breast cancer regimen" "What BP targets should I use?"
      (get_sample_patient "diabetes") (by decide)⟩

/-- Counterexample to C3 as stated: the sample HER2 patient's diagnosis
    contains "her2+" (case-insensitively), yet the condition category the
    handler derives on line 1081 is "general", not "her2" — the code only
    ever tests for "diabetes". -/
theorem c3_counterexample :
    strContains (lowerStr (get_sample_patient "her2").diagnosis) "her2+" = true ∧
    derive_condition (get_sample_patient "her2") = "general" :=
  ⟨by decide, by decide⟩

/-- C3 (amended): the category passed to the note engine is derived from
    the diagnosis by checking only the substring "diabetes"
    (case-insensitively): it is "diabetes" on a match and "general"
    otherwise; no other known category such as "her2" is ever produced. -/
theorem c3_category_amended (api : ClaudeAPIModel) (patient : PatientContext)
    (hist : List ChatMessage) (u : String) (h : wants_note u = true) :
    (∃ m : ChatMessage,
        handle_user_input api patient hist u =
          hist ++ [{ role := Role.user, content := u }, m] ∧
        m.note = some (api.generate_clinical_note patient (derive_condition patient))) ∧
    (derive_condition patient = "diabetes" ∨ derive_condition patient = "general") ∧
    derive_condition patient ≠ "her2" := by
  refine ⟨⟨{ role := Role.assistant
           , content := "I\x27ve prepared an assessment and plan based on this patient\x27s information and relevant guidelines:"
           , is_note := true
           , note := some (api.generate_clinical_note patient (derive_condition patient)) },
          ?_, rfl⟩, ?_, ?_⟩
  · simp [handle_user_input, h]
  · unfold derive_condition
    split
    · exact Or.inl rfl
    · exact Or.inr rfl
  · unfold derive_condition
    split
    · decide
    · decide

/-- Witness for C3 (amended) at the demo backend, the sample HER2 patient,
    and the suggested note-request utterance. -/
theorem c3_category_amended_witness :
    wants_note "Generate a succinct assessment and plan for my note" = true ∧
    ((∃ m : ChatMessage,
        handle_user_input demo_api (get_sample_patient "her2") []
            "Generate a succinct assessment and plan for my note" =
          [] ++ [{ role := Role.user
                 , content := "Generate a succinct assessment and plan for my note" }, m] ∧
        m.note = some (demo_api.generate_clinical_note (get_sample_patient "her2")
          (derive_condition (get_sample_patient "her2")))) ∧
    (derive_condition (get_sample_patient "her2") = "diabetes" ∨
      derive_condition (get_sample_patient "her2") = "general") ∧
    derive_condition (get_sample_patient "her2") ≠ "her2") :=
  ⟨by decide,
    c3_category_amended demo_api (get_sample_patient "her2") []
      "Generate a succinct assessment and plan for my note" (by decide)⟩

/-- C2: the handler appends a note-bearing assistant turn exactly when the
    lowercased utterance contains all of "assessment", "plan" and "note"
    (in which case the note comes from the note engine), and otherwise a
    retrieval-backed turn; the two spec utterances route as claimed. -/
theorem c2_intent_routing (api : ClaudeAPIModel) (patient : PatientContext)
    (hist : List ChatMessage) (u : String) :
    (∃ m : ChatMessage,
        handle_user_input api patient hist u =
          hist ++ [{ role := Role.user, content := u }, m] ∧
        m.is_note = wants_note u ∧
        m.note = (if wants_note u then
            some (api.generate_clinical_note patient (derive_condition patient))
          else none)) ∧
    wants_note "Generate a succinct assessment and plan for my note" = true ∧
    wants_note "What BP targets should I use?" = false := by
  refine ⟨?_, by decide, by decide⟩
  cases h : wants_note u with
  | true =>
      refine ⟨{ role := Role.assistant
              , content := "I\x27ve prepared an assessment and plan based on this patient\x27s information and relevant guidelines:"
              , is_note := true
              , note := some (api.generate_clinical_note patient (derive_condition patient)) },
        ?_, ?_, ?_⟩
      · simp [handle_user_input, h]
      · simp [h]
      · simp [h]
  | false =>
      cases hrec : (api.query_guidelines u patient).recommendations with
      | cons rec rest =>
          refine ⟨{ role := Role.assistant
                  , content := rec.explanation.getD "" ++ "\n\n\"" ++ rec.text ++ "\""
                  , source := some (fmtOptStr rec.source ++ ", page " ++ fmtOptInt rec.page) },
            ?_, ?_, ?_⟩
          · simp [handle_user_input, h, hrec]
          · simp [h]
          · simp [h]
      | nil =>
          refine ⟨{ role := Role.assistant
                  , content := "I couldn\x27t find specific guideline recommendations for your query. Please try asking a different question or provide more context." },
            ?_, ?_, ?_⟩
          · simp [handle_user_input, h, hrec]
          · simp [h]
          · simp [h]

/-- C9: every handler invocation appends exactly two turns — the user turn
    carrying the utterance, then one assistant turn that is note-bearing,
    recommendation-bearing with a "source, page N" citation for the first
    retrieved recommendation, or the fixed apology — and the previous
    history is preserved unchanged as a prefix. -/
theorem c9_two_turn_append (api : ClaudeAPIModel) (patient : PatientContext)
    (hist : List ChatMessage) (u : String) :
    ∃ m : ChatMessage,
      handle_user_input api patient hist u =
        hist ++ [{ role := Role.user, content := u }, m] ∧
      m.role = Role.assistant ∧
      ((m.is_note = true ∧
          m.note = some (api.generate_clinical_note patient (derive_condition patient))) ∨
       (∃ rec rest, (api.query_guidelines u patient).recommendations = rec :: rest ∧
          m.source = some (fmtOptStr rec.source ++ ", page " ++ fmtOptInt rec.page)) ∨
       (m.is_note = false ∧ m.source = none ∧
          m.content = "I couldn\x27t find specific guideline recommendations for your query. Please try asking a different question or provide more context.")) := by
  cases h : wants_note u with
  | true =>
      refine ⟨{ role := Role.assistant
              , content := "I\x27ve prepared an assessment and plan based on this patient\x27s information and relevant guidelines:"
              , is_note := true
              , note := some (api.generate_clinical_note patient (derive_condition patient)) },
        ?_, rfl, Or.inl ⟨rfl, rfl⟩⟩
      simp [handle_user_input, h]
  | false =>
      cases hrec : (api.query_guidelines u patient).recommendations with
      | cons rec rest =>
          refine ⟨{ role := Role.assistant
                  , content := rec.explanation.getD "" ++ "\n\n\"" ++ rec.text ++ "\""
                  , source := some (fmtOptStr rec.source ++ ", page " ++ fmtOptInt rec.page) },
            ?_, rfl, Or.inr (Or.inl ⟨rec, rest, rfl, rfl⟩)⟩
          simp [handle_user_input, h, hrec]
      | nil =>
          refine ⟨{ role := Role.assistant
                  , content := "I couldn\x27t find specific guideline recommendations for your query. Please try asking a different question or provide more context." },
            ?_, rfl, Or.inr (Or.inr ⟨rfl, rfl, rfl⟩)⟩
          simp [handle_user_input, h, hrec]

/-- A backend reply whose embedded JSON carries a confidence of 2, and the
    `json.loads` oracle for exactly that reply. -/
def overconfident_json : String :=
  "\x7b\"recommendations\": [\x7b\"text\": \"x\", \"explanation\": \"y\", \"page\": 1, \"source\": \"S\", \"confidence\": 2\x7d]\x7d"

/-- The parse oracle corresponding to `overconfident_json`. -/
def overconfident_parse (s : String) : Option GuidelineResponse :=
  if s = overconfident_json then
    some { recommendations :=
      [ { text := "x", explanation := some "y", page := some 1
        , source := some "S", confidence := 2 } ] }
  else none

/-- Counterexample to C4 as stated: on the non-demo parsed-backend path,
    `query_guidelines` returns the backend's recommendations without
    validating them, so a backend reply with confidence 2 flows through
    even though 2 lies outside the unit interval. -/
theorem c4_counterexample :
    ((query_guidelines "sk-live-key" overconfident_parse
        (ApiOutcome.success overconfident_json) "q"
        { diagnosis := "Migraine" }).recommendations.map Recommendation.confidence = [2]) ∧
    (1 : ℚ) < 2 :=
  ⟨by decide, by decide⟩

/-- C4 (amended): every recommendation returned by `query_guidelines` has
    confidence in the unit interval, provided every response the JSON-parse
    oracle accepts already satisfies that bound; the mock path, the
    free-text wrap (0.7), the parse-failure fallback (0) and the
    request-error fallback (empty) satisfy it unconditionally. -/
theorem c4_confidence_amended (api_key query : String) (patient : PatientContext)
    (parse : String → Option GuidelineResponse) (outcome : ApiOutcome)
    (hparse : ∀ s r, parse s = some r → conf_in_unit r = true) :
    conf_in_unit (query_guidelines api_key parse outcome query patient) = true := by
  unfold query_guidelines
  split
  · unfold get_mock_guideline_response
    split
    · rfl
    · split
      · rfl
      · rfl
  · split
    · rfl
    · dsimp only
      split
      · split
        · split
          · rename_i r heq
            exact hparse _ r heq
          · rfl
        · rfl
      · rfl

/-- Witness for C4 (amended) with a parse oracle that accepts nothing. -/
theorem c4_confidence_amended_witness :
    conf_in_unit (query_guidelines "demo_key" (fun _ => none) ApiOutcome.requestError
      "medication adjustment" (get_sample_patient "her2")) = true :=
  c4_confidence_amended "demo_key" "medication adjustment" (get_sample_patient "her2")
    (fun _ => none) ApiOutcome.requestError (fun _ _ h => Option.noConfusion h)

/-- The keys produced by Python's `enumerate` shifted by one are the
    consecutive naturals starting at `k + 1`. -/
theorem enumFrom_shift_keys (l : List String) (k : Nat) :
    ((List.enumFrom k l).map (fun p => (p.1 + 1, p.2))).map Prod.fst =
      List.range' (k + 1) l.length := by
  induction l generalizing k with
  | nil => rfl
  | cons a t ih =>
      simpa [List.enumFrom, List.range'] using ih (k + 1)

/-- C8: the page map produced by `extract_text_from_pdf` has exactly
    `get_pdf_page_count` entries, keyed consecutively from 1, and an input
    the PDF library rejects (in particular a zero-length one) yields the
    degraded outcome — empty full text, empty page map, page count 0 —
    rather than an exception. -/
theorem c8_pdf_roundtrip (pdf_parse : List Nat → Option (List String)) (bytes : List Nat)
    (hEmpty : pdf_parse [] = none) :
    ((extract_text_from_pdf pdf_parse bytes).2.map Prod.fst =
        List.range' 1 (get_pdf_page_count pdf_parse bytes)) ∧
    ((extract_text_from_pdf pdf_parse bytes).2.length = get_pdf_page_count pdf_parse bytes) ∧
    (pdf_parse bytes = none →
        extract_text_from_pdf pdf_parse bytes = ("", []) ∧
        get_pdf_page_count pdf_parse bytes = 0) ∧
    extract_text_from_pdf pdf_parse [] = ("", []) ∧
    get_pdf_page_count pdf_parse [] = 0 := by
  refine ⟨?_, ?_, ?_, ?_, ?_⟩
  · cases h : pdf_parse bytes with
    | none => simp [extract_text_from_pdf, get_pdf_page_count, h]
    | some pages =>
        simp only [extract_text_from_pdf, get_pdf_page_count, h, List.enum]
        exact enumFrom_shift_keys pages 0
  · cases h : pdf_parse bytes with
    | none => simp [extract_text_from_pdf, get_pdf_page_count, h]
    | some pages => simp [extract_text_from_pdf, get_pdf_page_count, h]
  · intro h
    simp [extract_text_from_pdf, get_pdf_page_count, h]
  · simp [extract_text_from_pdf, hEmpty]
  · simp [get_pdf_page_count, hEmpty]

/-- A sample PDF backend for the C8 witness: rejects empty input, extracts
    two pages otherwise. -/
def sample_pdf_parse (pdf_file : List Nat) : Option (List String) :=
  if pdf_file.length = 0 then none else some ["Page 1 text", "Page 2 text"]

/-- Witness for C8 at the bytes of "%PDF". -/
theorem c8_pdf_roundtrip_witness :
    sample_pdf_parse [] = none ∧
    (((extract_text_from_pdf sample_pdf_parse [37, 80, 68, 70]).2.map Prod.fst =
        List.range' 1 (get_pdf_page_count sample_pdf_parse [37, 80, 68, 70])) ∧
    ((extract_text_from_pdf sample_pdf_parse [37, 80, 68, 70]).2.length =
        get_pdf_page_count sample_pdf_parse [37, 80, 68, 70]) ∧
    (sample_pdf_parse [37, 80, 68, 70] = none →
        extract_text_from_pdf sample_pdf_parse [37, 80, 68, 70] = ("", []) ∧
        get_pdf_page_count sample_pdf_parse [37, 80, 68, 70] = 0) ∧
    extract_text_from_pdf sample_pdf_parse [] = ("", []) ∧
    get_pdf_page_count sample_pdf_parse [] = 0) :=
  ⟨rfl, c8_pdf_roundtrip sample_pdf_parse [37, 80, 68, 70] rfl⟩
